import Mathlib

set_option linter.unusedVariables false

/-!
Shallow embedding of the hook-dispatch core of this repository:

* `src/refactoring/rename_results_codestral-2501/iteration_09/code/_hooks.py`
  (`HookCaller._add_hookimpl`, `HookCaller.__call__`, `HookCaller.call_historic`,
  `HookCaller._maybe_apply_history`, `HookCaller._verify_all_args_are_provided`)
* `src/refactoring/strategy_pattern_results_codestral-2501/iteration_04/code/_callers.py`
  (`_multicall`, the `STRATEGY_MAP` strategies, `run_old_style_hookwrapper`,
  `_warn_teardown_exception`)
* `src/test_results/refactoring/getter_setter_results_codestral-2501/_backup/_result.py`
  (`Result.from_call`, `Result.get_result`, `Result.force_result`,
  `Result.force_exception`)

Python values are modelled by `PyObj`, Python exceptions by `PyExc`; a fallible
Python computation is an `Except PyExc` value.  A generator object is modelled
by its observable behaviour: what its first `next` does, and what `send` /
`throw` do once it is suspended at its (single) yield point.
-/

namespace Pluggy

/-- Model of the Python objects that flow through the engine.
`PyObj.none` is Python `None`. -/
inductive PyObj where
  | none
  | int (n : Int)
  | str (s : String)
  | bool (b : Bool)
  | list (xs : List PyObj)
  | gen (tag : String)

/-- Model of the Python exceptions raised by the embedded code.  Each
constructor carries the exception type identity and its message (or, for
`StopIteration`, its `value` payload). -/
inductive PyExc where
  | typeError (msg : String)
  | hookCallError (msg : String)
  | stopIteration (value : PyObj)
  | runtimeError (msg : String)
  | valueError (msg : String)
  | userExc (ty : String) (msg : String)

/-- `type(e).__name__` for the modelled exceptions. -/
def PyExc.typeName : PyExc → String
  | .typeError _ => "TypeError"
  | .hookCallError _ => "HookCallError"
  | .stopIteration _ => "StopIteration"
  | .runtimeError _ => "RuntimeError"
  | .valueError _ => "ValueError"
  | .userExc ty _ => ty

/-- `str(e)` for the modelled exceptions (the `StopIteration` payload is not
rendered; no claim depends on its string form). -/
def PyExc.text : PyExc → String
  | .typeError m => m
  | .hookCallError m => m
  | .stopIteration _ => ""
  | .runtimeError m => m
  | .valueError m => m
  | .userExc _ m => m

/-- `isinstance(e, StopIteration)`. -/
def PyExc.isStopIteration : PyExc → Bool
  | .stopIteration _ => true
  | _ => false

/-- A single ASCII apostrophe, as produced by Python `repr` on a simple
identifier string. -/
def sq : String := "\x27"

/-- Python `repr` of an argument-name string (`f"\x7bargname!r\x7d"`). -/
def pyrepr (s : String) : String := sq ++ s ++ sq

/-- `Result.__init__` state from `_result.py`: `_result` and `_exception`
slots (`_traceback` is carried inside the exception and not modelled
separately). -/
structure PyResult where
  _result : PyObj
  _exception : Option PyExc

/-- What the first `next(gen)` of a generator does
(`_callers.py` advances each wrapper generator to its first yield). -/
inductive GenFirst where
  | yields
  | stops
  | raises (e : PyExc)

/-- Outcome of resuming an exhausted-or-suspended generator with `send`:
either it finishes (`StopIteration(value)`), raises, or yields again. -/
inductive GenOutcome where
  | stop (value : PyObj)
  | raises (e : PyExc)
  | yields

/-- Outcome of resuming a suspended generator with `throw`: it can finish
(`StopIteration(value)`), raise some exception, raise a `RuntimeError` whose
`__cause__` is the thrown exception (the PEP 479 conversion checked by
`_multicall`), or yield again. -/
inductive ThrowOutcome where
  | stop (value : PyObj)
  | raises (e : PyExc)
  | raisesRTCausedByThrown (msg : String)
  | yields

/-- Outcome of resuming an old-style plugin wrapper generator that was sent the
shared `Result` box (`teardown.send(result)` in `run_old_style_hookwrapper`).
`stops` carries the box as the plugin may have mutated it via
`force_result` / `force_exception` before finishing. -/
inductive InnerOutcome where
  | stops (box : PyResult)
  | raises (e : PyExc)
  | yields

/-- Observable behaviour of a generator object produced by a plugin's
generator function: its first advance, and its reaction to each way the
engine can resume it.  `sendBox` is the old-style channel (the plugin
generator receives the mutable `Result` box); `sendObj` / `throwExc` are the
channels used on new-style wrapper generators by `_multicall`'s unwind loop. -/
structure GenBehavior where
  firstNext : GenFirst
  sendBox : PyResult → InnerOutcome
  sendObj : PyObj → GenOutcome
  throwExc : PyExc → ThrowOutcome

/-- Behaviour of a plugin's hook function: either a plain callable (returns a
value or raises), or a generator function (calling it builds a generator
object without running its body). -/
inductive PyFun where
  | plain (f : List PyObj → Except PyExc PyObj)
  | genFn (g : List PyObj → GenBehavior)

/-- `HookImpl` from `_hooks.py`: the callable, its introspected required
argument names, the owning plugin's display name, and the scheduling flags. -/
structure HookImpl where
  plugin_name : String
  argnames : List String
  wrapper : Bool
  hookwrapper : Bool
  tryfirst : Bool
  trylast : Bool
  function : PyFun

/-- The split point computed at the top of `HookCaller._add_hookimpl`: the
index of the first implementation flagged `hookwrapper` or `wrapper`, or the
length of the list when there is none (the `for`/`else` in the source). -/
def splitpoint (xs : List HookImpl) : Nat :=
  xs.findIdx (fun m => m.hookwrapper || m.wrapper)

/-- The `else` branch scan of `_add_hookimpl`:
`i = end - 1; while i >= start and self._hookimpls[i].tryfirst: i -= 1`,
returning the insertion index `i + 1`.  The argument is `i + 1` (so `0`
stands for `i = -1`), which keeps the index a `Nat`. -/
def whileTryfirst (xs : List HookImpl) (start : Nat) : Nat → Nat
  | 0 => 0
  | p + 1 =>
      if start ≤ p ∧ ((xs[p]?.map HookImpl.tryfirst).getD false) = true then
        whileTryfirst xs start p
      else
        p + 1

/-- `HookCaller._add_hookimpl` from
`rename_results_codestral-2501/iteration_09/code/_hooks.py` (lines 327-348):
compute the regular-prefix/wrapper-suffix split, pick the region for the new
implementation, then insert at the region start when `tryfirst`, at the
region end when `trylast`, and otherwise at the index delivered by the
backwards scan over trailing `tryfirst` elements. -/
def _add_hookimpl (xs : List HookImpl) (hookimpl : HookImpl) : List HookImpl :=
  let sp := splitpoint xs
  let start := if hookimpl.hookwrapper || hookimpl.wrapper then sp else 0
  let stop := if hookimpl.hookwrapper || hookimpl.wrapper then xs.length else sp
  if hookimpl.tryfirst then
    xs.insertIdx start hookimpl
  else if hookimpl.trylast then
    xs.insertIdx stop hookimpl
  else
    xs.insertIdx (whileTryfirst xs start stop) hookimpl

/-- The order in which `_multicall` reaches the implementations of a hook:
`for hook_impl in reversed(hook_impls)` (`_callers.py` line 101). -/
def dispatchOrder (xs : List HookImpl) : List HookImpl :=
  xs.reverse

/-- `Result.from_call` (`_result.py` lines 52-61), with the zero-argument
callable modelled by its outcome: `result = exception = None`, then either
the call's value lands in `_result` or the raised exception in
`_exception`. -/
def PyResult.from_call (func : Except PyExc PyObj) : PyResult :=
  match func with
  | .ok v => ⟨v, Option.none⟩
  | .error e => ⟨.none, some e⟩

/-- `Result.get_result` (`_result.py` lines 75-83): return the stored value
when no exception is stored, otherwise re-raise the stored exception (with
its original traceback, carried inside the modelled exception). -/
def PyResult.get_result (r : PyResult) : Except PyExc PyObj :=
  match r._exception with
  | Option.none => .ok r._result
  | some e => .error e

/-- `Result.force_result` (`_result.py` lines 63-67). -/
def PyResult.force_result (r : PyResult) (result : PyObj) : PyResult :=
  ⟨result, Option.none⟩

/-- `Result.force_exception` (`_result.py` lines 69-73). -/
def PyResult.force_exception (r : PyResult) (exception : PyExc) : PyResult :=
  ⟨.none, some exception⟩

/-- `_raise_wrapfail` (`_callers.py` lines 44-50) raises this `RuntimeError`.
The Python message also interpolates the generator code object's name and
location, which the model does not track. -/
def wrapfailExc (msg : String) : PyExc :=
  .runtimeError ("wrap_controller " ++ msg)

/-- The message built by `_warn_teardown_exception`
(`_callers.py` lines 53-62). -/
def teardownWarnMsg (hook_name : String) (hook_impl : HookImpl) (e : PyExc) : String :=
  "A plugin raised an exception during an old-style hookwrapper teardown.\n"
    ++ "Plugin: " ++ hook_impl.plugin_name ++ ", Hook: " ++ hook_name ++ "\n"
    ++ PyExc.typeName e ++ ": " ++ PyExc.text e ++ "\n"
    ++ "For more information see https://pluggy.readthedocs.io/en/stable/api_reference.html#pluggy.PluggyTeardownRaisedWarning"

/-- How the engine resumes the `run_old_style_hookwrapper` frame suspended at
`res = yield` (`_callers.py` line 26): `send` delivers a value there,
`throw` raises an exception there. -/
inductive ResumeArg where
  | sendV (v : PyObj)
  | throwV (e : PyExc)

/-- The `Result` box built when the frame resumes (`_callers.py` lines
25-29): `Result(res, None)` on a delivered value, `Result(None, exc)` when
the engine threw `exc` into the frame. -/
def resumeResult : ResumeArg → PyResult
  | .sendV v => ⟨v, Option.none⟩
  | .throwV e => ⟨.none, some e⟩

/-- Outcome of the resumed old-style frame as seen by the engine: the frame
returns a value (`StopIteration(value)`) or raises. -/
inductive ResumeOut where
  | stopR (value : PyObj)
  | raisesR (e : PyExc)

/-- The post-yield (teardown) phase of `run_old_style_hookwrapper`
(`_callers.py` lines 25-41): build the `Result` box, `teardown.send(result)`
it into the plugin generator `inner`; on the plugin's `StopIteration` fall
through to `return result.get_result()` (the plugin may have mutated the
box); if the plugin raises, call `_warn_teardown_exception` and re-raise; if
it yields a second time, `_raise_wrapfail`.  Returns the emitted warning
messages together with the frame's outcome. -/
def runOldStyleResume (hook_name : String) (hook_impl : HookImpl)
    (inner : PyResult → InnerOutcome) (arg : ResumeArg) :
    List String × ResumeOut :=
  let result := resumeResult arg
  match inner result with
  | .stops box =>
      match box.get_result with
      | .ok v => ([], .stopR v)
      | .error e => ([], .raisesR e)
  | .raises e => ([teardownWarnMsg hook_name hook_impl e], .raisesR e)
  | .yields => ([], .raisesR (wrapfailExc "has second yield"))

/-- A frame on `_multicall`'s teardown stack: a suspended wrapper generator,
labelled by its plugin name for the instrumentation trace, with its `send`
and `throw` behaviour. -/
structure Teardown where
  name : String
  send : PyObj → GenOutcome
  throwE : PyExc → ThrowOutcome

/-- The teardown-stack entry for a suspended `run_old_style_hookwrapper`
frame wrapping the plugin generator `g`.  The warning emitted on a plugin
teardown exception is exposed by `runOldStyleResume`; the engine's stack
entry only observes the frame's outcome. -/
def oldStyleTeardown (hook_name : String) (hook_impl : HookImpl)
    (g : GenBehavior) : Teardown where
  name := hook_impl.plugin_name
  send := fun v =>
    match (runOldStyleResume hook_name hook_impl g.sendBox (.sendV v)).2 with
    | .stopR x => .stop x
    | .raisesR e => .raises e
  throwE := fun e =>
    match (runOldStyleResume hook_name hook_impl g.sendBox (.throwV e)).2 with
    | .stopR x => .stop x
    | .raisesR e2 => .raises e2

/-- Mutable state threaded through one `_multicall` dispatch: the `results`
accumulator, the `teardowns` stack (both local lists in `_multicall`), and an
instrumentation trace of the hook functions actually called, by plugin
name. -/
structure MCState where
  results : List PyObj
  teardowns : List Teardown
  invoked : List String

/-- Outcome of one strategy-function body: normal return, a raised
`StopIteration` (caught by `_multicall` as `break`), or any other raised
exception.  List mutations made before the raise persist, so every outcome
carries the state. -/
inductive StrategyOutcome where
  | normal (st : MCState)
  | stopIter (st : MCState)
  | raised (e : PyExc) (st : MCState)

/-- `_strategy_hookwrapper(hook_impl, hook_name, args, teardowns)`
(`_callers.py` lines 64-67), 4 declared parameters: create the
`run_old_style_hookwrapper` generator, advance it to its first yield with
`next` (which runs the pre-yield phase of that frame: call the plugin's
generator function and advance the plugin generator once, with
`_raise_wrapfail` if the plugin generator finishes without yielding), then
append the suspended frame to `teardowns`. -/
def _strategy_hookwrapper (hook_impl : HookImpl) (hook_name : String)
    (args : List PyObj) (st : MCState) : StrategyOutcome :=
  let st1 := { st with invoked := st.invoked ++ [hook_impl.plugin_name] }
  match hook_impl.function with
  | .plain f =>
      match f args with
      | .error e => .raised e st1
      | .ok _ => .raised (.typeError ("object is not an iterator")) st1
  | .genFn g =>
      match (g args).firstNext with
      | .yields =>
          .normal { st1 with
            teardowns := st1.teardowns ++ [oldStyleTeardown hook_name hook_impl (g args)] }
      | .stops => .raised (wrapfailExc "did not yield") st1
      | .raises e => .raised e st1

/-- `_strategy_wrapper(hook_impl, hook_name, args, teardowns)`
(`_callers.py` lines 69-76), 4 declared parameters: call the plugin's
generator function, advance the generator to its first yield (catching
`StopIteration` into `_raise_wrapfail`), and append it to `teardowns`. -/
def _strategy_wrapper (hook_impl : HookImpl) (hook_name : String)
    (args : List PyObj) (st : MCState) : StrategyOutcome :=
  let st1 := { st with invoked := st.invoked ++ [hook_impl.plugin_name] }
  match hook_impl.function with
  | .plain f =>
      match f args with
      | .error e => .raised e st1
      | .ok _ => .raised (.typeError ("object is not an iterator")) st1
  | .genFn g =>
      match (g args).firstNext with
      | .yields =>
          .normal { st1 with
            teardowns := st1.teardowns
              ++ [⟨hook_impl.plugin_name, (g args).sendObj, (g args).throwExc⟩] }
      | .stops => .raised (wrapfailExc "did not yield") st1
      | .raises e => .raised e st1

/-- `_strategy_regular(hook_impl, hook_name, args, results, firstresult)`
(`_callers.py` lines 78-83), 5 declared parameters: call the implementation;
a non-`None` result is appended to `results`, and with `firstresult` set a
`StopIteration` is then raised (caught by `_multicall` as `break`).  A
generator function called here returns its (non-`None`) generator object,
modelled by `PyObj.gen`. -/
def _strategy_regular (hook_impl : HookImpl) (hook_name : String)
    (args : List PyObj) (st : MCState) (firstresult : Bool) : StrategyOutcome :=
  let st1 := { st with invoked := st.invoked ++ [hook_impl.plugin_name] }
  let res : Except PyExc PyObj :=
    match hook_impl.function with
    | .plain f => f args
    | .genFn _ => .ok (.gen hook_impl.plugin_name)
  match res with
  | .error e => .raised e st1
  | .ok v =>
      match v with
      | .none => .normal st1
      | v =>
          let st2 := { st1 with results := st1.results ++ [v] }
          if firstresult then .stopIter st2 else .normal st2

/-- The keys of `STRATEGY_MAP` (`_callers.py` lines 85-89). -/
inductive StrategyKey where
  | hookwrapperK
  | wrapperK
  | regularK

/-- `strategy_key = 'hookwrapper' if hook_impl.hookwrapper else 'wrapper' if
hook_impl.wrapper else 'regular'` (`_callers.py` line 113). -/
def strategyKeyOf (hook_impl : HookImpl) : StrategyKey :=
  if hook_impl.hookwrapper then .hookwrapperK
  else if hook_impl.wrapper then .wrapperK
  else .regularK

/-- Declared parameter count of each strategy function:
`_strategy_hookwrapper` and `_strategy_wrapper` declare
`(hook_impl, hook_name, args, teardowns)`, i.e. 4 parameters, and
`_strategy_regular` declares
`(hook_impl, hook_name, args, results, firstresult)`, i.e. 5. -/
def StrategyKey.paramCount : StrategyKey → Nat
  | .hookwrapperK => 4
  | .wrapperK => 4
  | .regularK => 5

/-- `__name__` of each strategy function. -/
def StrategyKey.fname : StrategyKey → String
  | .hookwrapperK => "_strategy_hookwrapper"
  | .wrapperK => "_strategy_wrapper"
  | .regularK => "_strategy_regular"

/-- The number of positional arguments supplied at the call site
`STRATEGY_MAP[strategy_key](hook_impl, hook_name, args, teardowns, results,
firstresult)` (`_callers.py` line 115). -/
def strategyCallArgCount : Nat := 6

/-- The `TypeError` CPython raises when a plain function receives more
positional arguments than it declares. -/
def arityExc (key : StrategyKey) : PyExc :=
  .typeError (key.fname ++ "() takes " ++ toString key.paramCount
    ++ " positional arguments but " ++ toString strategyCallArgCount ++ " were given")

/-- The strategy call in `_multicall` (`_callers.py` line 115).  Python
checks the supplied positional-argument count against the callee's declared
parameter count and raises `TypeError` on a mismatch before the body runs;
only when the counts agree does the selected strategy body execute. -/
def strategyCall (key : StrategyKey) (hook_impl : HookImpl) (hook_name : String)
    (args : List PyObj) (st : MCState) (firstresult : Bool) : StrategyOutcome :=
  if key.paramCount = strategyCallArgCount then
    match key with
    | .hookwrapperK => _strategy_hookwrapper hook_impl hook_name args st
    | .wrapperK => _strategy_wrapper hook_impl hook_name args st
    | .regularK => _strategy_regular hook_impl hook_name args st firstresult
  else
    .raised (arityExc key) st

/-- `args = [caller_kwargs[argname] for argname in hook_impl.argnames]`. -/
def lookupKw (kwargs : List (String × PyObj)) (a : String) : Option PyObj :=
  (kwargs.find? (fun p => p.1 == a)).map (·.2)

/-- The argument binding at the top of the dispatch loop (`_callers.py`
lines 102-110): bind every declared argument name from `caller_kwargs`; on
`KeyError` the handler scans `argnames` in order and raises `HookCallError`
naming the first name missing from `caller_kwargs`. -/
def bindArgs (argnames : List String) (kwargs : List (String × PyObj)) :
    Except PyExc (List PyObj) :=
  match argnames.find? (fun a => (lookupKw kwargs a).isNone) with
  | some a =>
      .error (.hookCallError ("hook call must provide argument " ++ pyrepr a))
  | Option.none => .ok (argnames.map (fun a => (lookupKw kwargs a).getD .none))

/-- `_multicall`'s main loop over the already-reversed implementation list
(`_callers.py` lines 100-121).  Returns the final state and the pending
exception: any exception escaping an iteration is caught by
`except BaseException as exc: exception = exc`, which ends the loop, while a
`StopIteration` raised by the strategy call is caught inside the loop and
turns into `break` with no pending exception. -/
def multicallLoop (hook_name : String) (kwargs : List (String × PyObj))
    (firstresult : Bool) : List HookImpl → MCState → MCState × Option PyExc
  | [], st => (st, Option.none)
  | hook_impl :: rest, st =>
      match bindArgs hook_impl.argnames kwargs with
      | .error e => (st, some e)
      | .ok args =>
          match strategyCall (strategyKeyOf hook_impl) hook_impl hook_name args st firstresult with
          | .stopIter st1 => (st1, Option.none)
          | .raised e st1 => (st1, some e)
          | .normal st1 => multicallLoop hook_name kwargs firstresult rest st1

/-- How a teardown frame was resumed, for the instrumentation trace:
`teardown.throw(exception)` or `teardown.send(result)`. -/
inductive Delivery where
  | threw (e : PyExc)
  | sent (r : PyObj)

/-- One resume of a teardown frame: which frame, and how it was resumed. -/
structure ResumeEvent where
  name : String
  delivery : Delivery

/-- The body of the teardown unwind loop in `_multicall`'s `finally` block
(`_callers.py` lines 131-150), processing an already-reversed stack: with an
exception pending, `teardown.throw(exception)`; a `RuntimeError` whose
`__cause__` is a thrown `StopIteration` is closed and skipped, any other
re-raise replaces the pending exception.  With no exception pending,
`teardown.send(result)`.  A frame finishing with `StopIteration(si)` makes
`si.value` the new result and clears the pending exception.  A frame that
yields a second time triggers `_raise_wrapfail`, which aborts the whole
unwind.  The first component lists the resumes performed, in iteration
order. -/
def unwindLoop : List Teardown → PyObj → Option PyExc →
    List ResumeEvent × Except PyExc (PyObj × Option PyExc)
  | [], result, exception => ([], .ok (result, exception))
  | teardown :: rest, result, exception =>
      match exception with
      | some exc =>
          let ev : ResumeEvent := ⟨teardown.name, .threw exc⟩
          match teardown.throwE exc with
          | .stop v =>
              let k := unwindLoop rest v Option.none
              (ev :: k.1, k.2)
          | .raises e2 =>
              let k := unwindLoop rest result (some e2)
              (ev :: k.1, k.2)
          | .raisesRTCausedByThrown msg =>
              if exc.isStopIteration then
                let k := unwindLoop rest result (some exc)
                (ev :: k.1, k.2)
              else
                let k := unwindLoop rest result (some (.runtimeError msg))
                (ev :: k.1, k.2)
          | .yields => ([ev], .error (wrapfailExc "has second yield"))
      | Option.none =>
          let ev : ResumeEvent := ⟨teardown.name, .sent result⟩
          match teardown.send result with
          | .stop v =>
              let k := unwindLoop rest v Option.none
              (ev :: k.1, k.2)
          | .raises e2 =>
              let k := unwindLoop rest result (some e2)
              (ev :: k.1, k.2)
          | .yields => ([ev], .error (wrapfailExc "has second yield"))

/-- `for teardown in reversed(teardowns): ...` (`_callers.py` line 131): the
unwind loop walks the teardown stack in reverse push order. -/
def unwindTeardowns (teardowns : List Teardown) (result : PyObj)
    (exception : Option PyExc) :
    List ResumeEvent × Except PyExc (PyObj × Option PyExc) :=
  unwindLoop teardowns.reverse result exception

/-- Result of one `_multicall` dispatch: the returned value or raised
exception, plus the instrumentation traces (hook functions called, teardown
frames resumed). -/
structure MulticallOutput where
  outcome : Except PyExc PyObj
  invoked : List String
  resumed : List ResumeEvent

/-- `_multicall` (`_callers.py` lines 91-155): run the dispatch loop over
`reversed(hook_impls)`; in the `finally` block compute the provisional
result (`results[0] if results else None` under `firstresult`, else the
whole list) and unwind the teardown stack; finally re-raise the pending
exception, if any, and otherwise return the result. -/
def _multicall (hook_name : String) (hook_impls : List HookImpl)
    (caller_kwargs : List (String × PyObj)) (firstresult : Bool) :
    MulticallOutput :=
  let st0 : MCState := ⟨[], [], []⟩
  let p := multicallLoop hook_name caller_kwargs firstresult hook_impls.reverse st0
  let result : PyObj :=
    if firstresult then
      match p.1.results with
      | [] => .none
      | r :: _ => r
    else .list p.1.results
  let u := unwindTeardowns p.1.teardowns result p.2
  match u.2 with
  | .error e => ⟨.error e, p.1.invoked, u.1⟩
  | .ok (_, some e) => ⟨.error e, p.1.invoked, u.1⟩
  | .ok (result1, Option.none) => ⟨.ok result1, p.1.invoked, u.1⟩

/-- The spec data `HookCaller` reads at call time (`HookSpec` in
`_hooks.py`): the declared argument names and the `firstresult` option. -/
structure SpecInfo where
  argnames : List String
  firstresult : Bool

/-- One entry of the historic call log: `(kwargs, result_callback)`, the
callback identified by an opaque label. -/
structure HistEntry where
  kwargs : List (String × PyObj)
  callback : Option String

/-- `HookCaller` state (`_hooks.py`): hook name, the live ordered
implementation list, the optional specification, and the historic call log
(`None` exactly when the hook is not historic). -/
structure HookCallerSt where
  name : String
  hookimpls : List HookImpl
  spec : Option SpecInfo
  call_history : Option (List HistEntry)

/-- `HookCaller.is_historic` (`_hooks.py` line 313):
`self._call_history is not None`. -/
def HookCallerSt.is_historic (hc : HookCallerSt) : Bool :=
  hc.call_history.isSome

/-- `HookCaller._verify_all_args_are_provided` (`_hooks.py` lines 352-367):
when a specification exists and some of its argument names are missing from
the call kwargs, emit a single warning listing the missing names (in
spec-declared order); never an error. -/
def verifyAllArgs (hc : HookCallerSt) (kwargs : List (String × PyObj)) :
    List String :=
  match hc.spec with
  | Option.none => []
  | some s =>
      let missing := s.argnames.filter (fun a => (lookupKw kwargs a).isNone)
      if missing.isEmpty then []
      else
        ["Argument(s) " ++ String.intercalate ", " (missing.map pyrepr)
          ++ " which are declared in the hookspec cannot be found in this hook call"]

/-- The `firstresult` flag read by `HookCaller.__call__` (`_hooks.py` line
374): from the spec options, defaulting to `False` when there is no spec. -/
def firstresultOf (hc : HookCallerSt) : Bool :=
  match hc.spec with
  | some s => s.firstresult
  | Option.none => false

/-- `HookCaller.__call__` (`_hooks.py` lines 369-376): assert the hook is
not historic, emit the missing-argument diagnostics, read `firstresult` from
the spec options, and dispatch a copy of the current implementation list
through the engine; in this pairing of sources the injected `self._hookexec`
is `_multicall`.  The `Except String` layer models the failed-assertion
message. -/
def hookCall (hc : HookCallerSt) (kwargs : List (String × PyObj)) :
    Except String (List String × MulticallOutput) :=
  if hc.is_historic then
    .error "Cannot directly call a historic hook - use call_historic instead."
  else
    .ok (verifyAllArgs hc kwargs,
      _multicall hc.name hc.hookimpls kwargs (firstresultOf hc))

/-- Python truthiness (`if res`) of the modelled objects. -/
def pyTruthy : PyObj → Bool
  | .none => false
  | .int n => n != 0
  | .str s => s != ""
  | .bool b => b
  | .list xs => !xs.isEmpty
  | .gen _ => true

/-- A dispatch performed through the injected `self._hookexec` callable,
recorded for the theorems: the hook name, the plugin names of the dispatched
implementations, the kwargs, and the `firstresult` flag. -/
structure DispatchCall where
  name : String
  implNames : List String
  kwargs : List (String × PyObj)
  firstresult : Bool

/-- `HookCaller.call_historic` (`_hooks.py` lines 378-393), over an abstract
dispatch function `exec` standing for the injected `self._hookexec`: assert
the hook is historic, normalise `kwargs` (`kwargs or` the empty mapping —
the identity on the stored mapping, since a missing or empty mapping becomes
the empty mapping), append `(kwargs, result_callback)` to the log, dispatch
all current implementations with `firstresult=False`, and feed each element
of a list result to the callback when one was given.  Returns the new state,
the dispatch performed, and the callback invocations `(callback, element)`
in order. -/
def call_historic (hc : HookCallerSt) (result_callback : Option String)
    (kwargs : List (String × PyObj))
    (exec : String → List HookImpl → List (String × PyObj) → Bool → PyObj) :
    Except String (HookCallerSt × DispatchCall × List (String × PyObj)) :=
  match hc.call_history with
  | Option.none => .error "assert self._call_history is not None"
  | some hist =>
      let kwargs1 := if kwargs.isEmpty then [] else kwargs
      let hc1 :=
        { hc with call_history := some (hist ++ [⟨kwargs1, result_callback⟩]) }
      let res := exec hc.name hc.hookimpls kwargs1 false
      let cbEvents :=
        match result_callback with
        | Option.none => []
        | some cb =>
            match res with
            | .list xs => xs.map (fun x => (cb, x))
            | _ => []
      .ok (hc1, ⟨hc.name, hc.hookimpls.map (·.plugin_name), kwargs1, false⟩, cbEvents)

/-- `HookCaller._maybe_apply_history` (`_hooks.py` lines 424-432), over the
same abstract dispatch function: when the hook is historic, replay each
logged call into the single implementation `method` — one dispatch of
`[method]` per log entry, in log order, with that entry's kwargs and
`firstresult=False`; a truthy result with a logged callback feeds the
result's first element to the callback.  Returns the dispatches performed,
in order, and the callback invocations. -/
def _maybe_apply_history (hc : HookCallerSt) (method : HookImpl)
    (exec : String → List HookImpl → List (String × PyObj) → Bool → PyObj) :
    List DispatchCall × List (String × PyObj) :=
  match hc.call_history with
  | Option.none => ([], [])
  | some hist =>
      hist.foldl (fun acc entry =>
        let res := exec hc.name [method] entry.kwargs false
        let ds := acc.1 ++ [⟨hc.name, [method.plugin_name], entry.kwargs, false⟩]
        let cbs := acc.2 ++
          (match entry.callback with
           | Option.none => []
           | some cb =>
               if pyTruthy res then
                 match res with
                 | .list (x :: _) => [(cb, x)]
                 | _ => []
               else [])
        (ds, cbs)) ([], [])

/-- The §4.1 step-2 insertion rule as amended to match the source: the
region bounds are computed exactly as in `_add_hookimpl`; a `tryfirst`
implementation goes to the region start, a `trylast` implementation to the
region end, and any other implementation is inserted immediately before the
maximal run of consecutive `tryfirst` elements at the end of its region
(that is, immediately after the last element of the region that is not
`tryfirst` — in particular after any plain or `trylast` elements already
present). -/
def addHookimplAmendedSpec (xs : List HookImpl) (hookimpl : HookImpl) :
    List HookImpl :=
  let sp := splitpoint xs
  let start := if hookimpl.hookwrapper || hookimpl.wrapper then sp else 0
  let stop := if hookimpl.hookwrapper || hookimpl.wrapper then xs.length else sp
  let region := (xs.drop start).take (stop - start)
  if hookimpl.tryfirst then xs.insertIdx start hookimpl
  else if hookimpl.trylast then xs.insertIdx stop hookimpl
  else
    xs.insertIdx (stop - (region.reverse.takeWhile (fun m => m.tryfirst)).length)
      hookimpl

/-- A plain implementation named `A` returning `1`, no flags, no required
arguments. -/
def implPlainA : HookImpl :=
  ⟨"A", [], false, false, false, false, .plain (fun _ => .ok (.int 1))⟩

/-- A plain implementation named `B` returning `2`. -/
def implPlainB : HookImpl :=
  ⟨"B", [], false, false, false, false, .plain (fun _ => .ok (.int 2))⟩

/-- A well-behaved wrapper generator: yields once, passes the received
result through unchanged. -/
def genPass : GenBehavior :=
  ⟨.yields, fun box => .stops box, fun v => .stop v, fun e => .raises e⟩

/-- A new-style wrapper implementation named `C`. -/
def implWrapC : HookImpl :=
  ⟨"C", [], true, false, false, false, .genFn (fun _ => genPass)⟩

/-- A `tryfirst`-flagged plain implementation named `F`. -/
def implTryfirstF : HookImpl :=
  ⟨"F", [], false, false, true, false, .plain (fun _ => .ok (.int 3))⟩

/-- A plain implementation named `N`. -/
def implPlainN : HookImpl :=
  ⟨"N", [], false, false, false, false, .plain (fun _ => .ok (.int 4))⟩

/-- A plain implementation named `M` that declares one required argument
`x`. -/
def implNeedsX : HookImpl :=
  ⟨"M", ["x"], false, false, false, false, .plain (fun _ => .ok (.int 7))⟩

/-- The implementation list obtained by registering `A` (plain), then `B`
(plain), then `C` (wrapper) on one `HookCaller`. -/
def implsABC : List HookImpl :=
  _add_hookimpl (_add_hookimpl (_add_hookimpl [] implPlainA) implPlainB) implWrapC

/-- A teardown frame that finishes immediately whichever way it is resumed
(its `send` finishes with value `None`, its `throw` re-raises). -/
def tdStop (nm : String) : Teardown :=
  ⟨nm, fun _ => .stop .none, fun e => .raises e⟩

/-- A plugin teardown generator that raises `ValueError` when resumed. -/
def innerRaisesBoom : PyResult → InnerOutcome :=
  fun _ => .raises (.valueError ("boom"))

/-- A legacy-wrapper (`hookwrapper`) implementation named `p1`. -/
def implP1 : HookImpl :=
  ⟨"p1", [], false, true, false, false, .genFn (fun _ => genPass)⟩

/-- Characterisation of the backwards scan in the `else` branch of
`_add_hookimpl`: for region bounds `start ≤ stop ≤ xs.length`, the computed
insertion index is `stop` minus the length of the maximal run of
consecutive `tryfirst` elements at the end of the region. -/
theorem whileTryfirst_eq (xs : List HookImpl) (start : Nat) :
    ∀ stop, start ≤ stop → stop ≤ xs.length →
      whileTryfirst xs start stop =
        stop - (((xs.drop start).take (stop - start)).reverse.takeWhile
          (fun m => m.tryfirst)).length := by
  intro stop
  induction stop with
  | zero =>
      intro h1 h2
      simp [whileTryfirst]
  | succ q ih =>
      intro h1 h2
      by_cases hsq : start ≤ q
      · have hqlen : q < xs.length := lt_of_lt_of_le (Nat.lt_succ_self q) h2
        have hreg : (xs.drop start).take (q + 1 - start)
            = (xs.drop start).take (q - start) ++ (xs[q]?).toList := by
          have hq : q + 1 - start = (q - start) + 1 := by omega
          rw [hq, List.take_succ, List.getElem?_drop]
          have hsum : start + (q - start) = q := by omega
          rw [hsum]
        have hm : xs[q]? = some xs[q] := List.getElem?_eq_getElem hqlen
        by_cases htf : xs[q].tryfirst = true
        · have hstep : whileTryfirst xs start (q + 1) = whileTryfirst xs start q := by
            simp [whileTryfirst, hsq, hm, htf]
          rw [hstep, ih hsq (le_of_lt hqlen), hreg, hm]
          simp only [Option.toList_some, List.reverse_append, List.reverse_cons,
            List.reverse_nil, List.nil_append, List.cons_append, List.takeWhile_cons,
            htf, if_true, List.length_cons]
          omega
        · have hstep : whileTryfirst xs start (q + 1) = q + 1 := by
            simp [whileTryfirst, hsq, hm, htf]
          rw [hstep, hreg, hm]
          simp only [Option.toList_some, List.reverse_append, List.reverse_cons,
            List.reverse_nil, List.nil_append, List.cons_append, List.takeWhile_cons,
            htf]
          simp
      · have hs : start = q + 1 := by omega
        have hstep : whileTryfirst xs start (q + 1) = q + 1 := by
          simp [whileTryfirst, hsq]
        rw [hstep, hs]
        simp

/-- C4 (amended): `_add_hookimpl` inserts the new implementation inside its
own partition at exactly this position: at the region start when `tryfirst`,
at the region end when `trylast`, and otherwise immediately before the
maximal run of consecutive `tryfirst` elements at the end of the region —
after every other element of the region, including any `trylast`
elements. -/
theorem add_hookimpl_insertion_position (xs : List HookImpl) (hookimpl : HookImpl) :
    _add_hookimpl xs hookimpl = addHookimplAmendedSpec xs hookimpl := by
  unfold _add_hookimpl addHookimplAmendedSpec
  by_cases hw : (hookimpl.hookwrapper || hookimpl.wrapper) = true
  · by_cases htf : hookimpl.tryfirst = true
    · simp [hw, htf]
    · by_cases htl : hookimpl.trylast = true
      · simp [hw, htf, htl]
      · simp only [hw, htf, htl, if_true, if_false, Bool.false_eq_true]
        rw [whileTryfirst_eq xs (splitpoint xs) xs.length
          (List.findIdx_le_length _) le_rfl]
  · by_cases htf : hookimpl.tryfirst = true
    · simp [hw, htf]
    · by_cases htl : hookimpl.trylast = true
      · simp [hw, htf, htl]
      · simp only [hw, htf, htl, if_true, if_false, Bool.false_eq_true]
        rw [whileTryfirst_eq xs 0 (splitpoint xs)
          (Nat.zero_le _) (List.findIdx_le_length _)]

/-- C4 (counterexample): after inserting a `tryfirst` implementation `F`
and then a plain implementation `N`, the list is `[N, F]` — the plain
implementation is NOT inserted immediately after the last `tryfirst`
element, which would give `[F, N]`. -/
theorem add_hookimpl_else_branch_cex :
    ((_add_hookimpl (_add_hookimpl [] implTryfirstF) implPlainN).map
        (fun m => m.plugin_name) = ["N", "F"])
    ∧ (["N", "F"] : List String) ≠ ["F", "N"] :=
  ⟨rfl, by decide⟩

/-- C1: registering a plain implementation `A` and then a `tryfirst`
implementation `F` on one `HookCaller` yields the stored list `[F, A]`, so
the reverse-order dispatch of the multicall engine reaches the plain
implementation `A` before the `tryfirst` implementation `F` — `tryfirst`
implementations of a class do not execute before non-flagged ones. -/
theorem add_hookimpl_tryfirst_dispatched_after_plain :
    ((_add_hookimpl (_add_hookimpl [] implPlainA) implTryfirstF).map
        (fun m => m.plugin_name) = ["F", "A"])
    ∧ ((dispatchOrder (_add_hookimpl (_add_hookimpl [] implPlainA) implTryfirstF)).map
        (fun m => m.plugin_name) = ["A", "F"]) :=
  ⟨rfl, rfl⟩

/-- C2: with `A` (plain, returns 1), `B` (plain, returns 2) and `C`
(wrapper) registered for one hook, a call with `firstresult=False` does not
return `[2, 1]`: the strategy call supplies 6 positional arguments to the
4-parameter `_strategy_wrapper`, so the dispatch raises `TypeError` and no
hook function is ever invoked. -/
theorem multicall_plain_plain_wrapper_raises_arity_typeerror :
    (implsABC.map (fun m => m.plugin_name) = ["A", "B", "C"])
    ∧ (_multicall "myhook" implsABC [] false).outcome
        = Except.error (.typeError
            ("_strategy_wrapper() takes 4 positional arguments but 6 were given"))
    ∧ (_multicall "myhook" implsABC [] false).invoked = [] :=
  ⟨rfl, rfl, rfl⟩

/-- C3: with a single plain implementation returning `1` and
`firstresult=True`, the call does not return the first non-`None` value:
the strategy call supplies 6 positional arguments to the 5-parameter
`_strategy_regular`, so the dispatch raises `TypeError` and the
implementation is never invoked. -/
theorem multicall_firstresult_raises_arity_typeerror :
    (_multicall "myhook" [implPlainA] [] true).outcome
        = Except.error (.typeError
            ("_strategy_regular() takes 5 positional arguments but 6 were given"))
    ∧ (_multicall "myhook" [implPlainA] [] true).invoked = [] :=
  ⟨rfl, rfl⟩

/-- C7: when the implementation with the missing required argument `x` is
preceded (in reverse dispatch order) by another implementation, the
`HookCallError` never surfaces — the earlier implementation already raises
the arity `TypeError` — while with the offending implementation first, the
engine does raise `HookCallError` naming the missing argument at the moment
that implementation is reached. -/
theorem multicall_missing_argument_raising :
    ((_multicall "myhook" [implNeedsX, implPlainA] [] false).outcome
        = Except.error (.typeError
            ("_strategy_regular() takes 5 positional arguments but 6 were given")))
    ∧ ((_multicall "myhook" [implPlainA, implNeedsX] [] false).outcome
        = Except.error (.hookCallError
            ("hook call must provide argument " ++ pyrepr ("x")))) :=
  ⟨rfl, rfl⟩

/-- C10: dispatching an empty implementation list invokes no callable,
resumes no teardown frame, and returns normally — the empty list when
`firstresult` is false and `None` when it is true; consequently a
non-historic `HookCaller` with no registered implementations returns
normally from `__call__`. -/
theorem multicall_empty_impls_succeeds (hook_name : String)
    (kwargs : List (String × PyObj)) (firstresult : Bool) :
    ((_multicall hook_name [] kwargs firstresult).outcome
        = .ok (if firstresult then PyObj.none else PyObj.list []))
    ∧ (_multicall hook_name [] kwargs firstresult).invoked = []
    ∧ (_multicall hook_name [] kwargs firstresult).resumed = []
    ∧ (∀ hc : HookCallerSt, hc.hookimpls = [] → hc.call_history = Option.none →
        hookCall hc kwargs
          = .ok (verifyAllArgs hc kwargs,
              _multicall hc.name [] kwargs (firstresultOf hc))) := by
  refine ⟨?_, ?_, ?_, ?_⟩
  · cases firstresult <;> rfl
  · rfl
  · rfl
  · intro hc h1 h2
    simp [hookCall, HookCallerSt.is_historic, h2, h1, firstresultOf]

/-- Witness for C10 at a concrete empty non-historic caller. -/
theorem multicall_empty_impls_succeeds_witness :
    hookCall ⟨"h", [], Option.none, Option.none⟩ []
        = .ok ([], _multicall "h" [] [] false)
    ∧ (_multicall "h" [] [] false).outcome = .ok (.list []) := by
  refine ⟨(multicall_empty_impls_succeeds "h" [] false).2.2.2
    ⟨"h", [], Option.none, Option.none⟩ rfl rfl, ?_⟩
  exact (multicall_empty_impls_succeeds "h" [] false).1

/-- C6: `Result.from_call` followed by `get_result` reproduces the callable
outcome exactly — the returned value on success, and the very same exception
(same type, same message) re-raised on failure. -/
theorem result_from_call_get_result_roundtrip (func : Except PyExc PyObj) :
    (PyResult.from_call func).get_result = func := by
  cases func <;> rfl

/-- Trace of the unwind loop: the resumed frames form a prefix of the input
list, and the whole input list whenever the loop does not abort in
`_raise_wrapfail`. -/
theorem unwind_trace_names (l : List Teardown) :
    ∀ (r : PyObj) (e : Option PyExc),
      ((unwindLoop l r e).1.map (fun ev => ev.name)
          = (l.map Teardown.name).take (unwindLoop l r e).1.length)
      ∧ (∀ out, (unwindLoop l r e).2 = Except.ok out →
          (unwindLoop l r e).1.map (fun ev => ev.name) = l.map Teardown.name) := by
  induction l with
  | nil =>
      intro r e
      exact ⟨by simp [unwindLoop], fun out h => by simp [unwindLoop]⟩
  | cons t rest ih =>
      intro r e
      cases e with
      | none =>
          cases hs : t.send r with
          | stop v =>
              have h1 := ih v Option.none
              constructor
              · simp [unwindLoop, hs, h1.1]
              · intro out h
                have h2 : (unwindLoop rest v Option.none).2 = Except.ok out := by
                  simpa [unwindLoop, hs] using h
                simp [unwindLoop, hs, h1.2 out h2]
          | raises e2 =>
              have h1 := ih r (some e2)
              constructor
              · simp [unwindLoop, hs, h1.1]
              · intro out h
                have h2 : (unwindLoop rest r (some e2)).2 = Except.ok out := by
                  simpa [unwindLoop, hs] using h
                simp [unwindLoop, hs, h1.2 out h2]
          | yields =>
              constructor
              · simp [unwindLoop, hs]
              · intro out h
                simp [unwindLoop, hs] at h
      | some exc =>
          cases ht : t.throwE exc with
          | stop v =>
              have h1 := ih v Option.none
              constructor
              · simp [unwindLoop, ht, h1.1]
              · intro out h
                have h2 : (unwindLoop rest v Option.none).2 = Except.ok out := by
                  simpa [unwindLoop, ht] using h
                simp [unwindLoop, ht, h1.2 out h2]
          | raises e2 =>
              have h1 := ih r (some e2)
              constructor
              · simp [unwindLoop, ht, h1.1]
              · intro out h
                have h2 : (unwindLoop rest r (some e2)).2 = Except.ok out := by
                  simpa [unwindLoop, ht] using h
                simp [unwindLoop, ht, h1.2 out h2]
          | raisesRTCausedByThrown msg =>
              by_cases hsi : exc.isStopIteration = true
              · have h1 := ih r (some exc)
                constructor
                · simp [unwindLoop, ht, hsi, h1.1]
                · intro out h
                  have h2 : (unwindLoop rest r (some exc)).2 = Except.ok out := by
                    simpa [unwindLoop, ht, hsi] using h
                  simp [unwindLoop, ht, hsi, h1.2 out h2]
              · have h1 := ih r (some (.runtimeError msg))
                constructor
                · simp [unwindLoop, ht, hsi, h1.1]
                · intro out h
                  have h2 : (unwindLoop rest r (some (.runtimeError msg))).2
                      = Except.ok out := by
                    simpa [unwindLoop, ht, hsi] using h
                  simp [unwindLoop, ht, hsi, h1.2 out h2]
          | yields =>
              constructor
              · simp [unwindLoop, ht]
              · intro out h
                simp [unwindLoop, ht] at h

/-- C5 (amended): after all implementations are consumed, the multicall
engine unwinds the teardown stack in REVERSE push order — the last-pushed
(innermost) frame is resumed first: the resume trace follows the reversed
stack (a prefix of it on an early `_raise_wrapfail` abort, all of it
otherwise), and the first frame resumed is the last-pushed one, resumed by
throwing the pending exception into it when one is pending and by sending
the current provisional result otherwise. -/
theorem unwind_resumes_in_reverse_push_order (teardowns : List Teardown)
    (result : PyObj) (exception : Option PyExc) :
    ((unwindTeardowns teardowns result exception).1.map (fun ev => ev.name)
        = (teardowns.reverse.map Teardown.name).take
            (unwindTeardowns teardowns result exception).1.length)
    ∧ (∀ out, (unwindTeardowns teardowns result exception).2 = Except.ok out →
        (unwindTeardowns teardowns result exception).1.map (fun ev => ev.name)
          = teardowns.reverse.map Teardown.name)
    ∧ (∀ t rest, teardowns.reverse = t :: rest →
        (unwindTeardowns teardowns result exception).1.head?
          = some ⟨t.name, match exception with
                          | some e => Delivery.threw e
                          | Option.none => Delivery.sent result⟩) := by
  refine ⟨(unwind_trace_names teardowns.reverse result exception).1,
    (unwind_trace_names teardowns.reverse result exception).2, ?_⟩
  intro t rest hrev
  unfold unwindTeardowns
  rw [hrev]
  cases exception with
  | none =>
      cases hs : t.send result <;> simp [unwindLoop, hs]
  | some e =>
      cases ht : t.throwE e with
      | stop v => simp [unwindLoop, ht]
      | raises e2 => simp [unwindLoop, ht]
      | raisesRTCausedByThrown msg =>
          by_cases hsi : e.isStopIteration = true <;> simp [unwindLoop, ht, hsi]
      | yields => simp [unwindLoop, ht]

/-- C5 (counterexample): with two frames pushed in the order `t1`, `t2`,
the unwind resumes `t2` first — the resume order is `[t2, t1]`, not the
push order `[t1, t2]` asserted by the claim. -/
theorem unwind_push_order_cex :
    ((unwindTeardowns [tdStop "t1", tdStop "t2"] (.list []) Option.none).1.map
        (fun ev => ev.name) = ["t2", "t1"])
    ∧ (["t2", "t1"] : List String) ≠ ["t1", "t2"] :=
  ⟨rfl, by decide⟩

/-- Witness for the amended C5 at a concrete two-frame stack. -/
theorem unwind_resumes_in_reverse_push_order_witness :
    ((unwindTeardowns [tdStop "t1", tdStop "t2"] (.int 5) Option.none).2
        = Except.ok (PyObj.none, Option.none))
    ∧ ((unwindTeardowns [tdStop "t1", tdStop "t2"] (.int 5) Option.none).1.map
        (fun ev => ev.name) = ["t2", "t1"])
    ∧ ((unwindTeardowns [tdStop "t1", tdStop "t2"] (.int 5) Option.none).1.head?
        = some ⟨"t2", Delivery.sent (.int 5)⟩) := by
  refine ⟨rfl, ?_, ?_⟩
  · exact (unwind_resumes_in_reverse_push_order [tdStop "t1", tdStop "t2"]
      (.int 5) Option.none).2.1 (PyObj.none, Option.none) rfl
  · exact (unwind_resumes_in_reverse_push_order [tdStop "t1", tdStop "t2"]
      (.int 5) Option.none).2.2 (tdStop "t2") [tdStop "t1"] rfl

/-- Python `or` with the empty mapping leaves a list-modelled mapping
unchanged. -/
theorem if_isEmpty_self (l : List (String × PyObj)) :
    (if l.isEmpty then ([] : List (String × PyObj)) else l) = l := by
  cases l <;> simp

/-- C8: on a historic hook, two `call_historic` invocations with kwargs `k1`
then `k2` followed by `_maybe_apply_history` for a newly registered
implementation `m` dispatch `[m]` exactly once per logged call, in the
original call order, each dispatch carrying the kwargs of the corresponding
logged call and `firstresult=False`. -/
theorem call_historic_replay_once_per_call_in_order (n : String)
    (impls : List HookImpl) (k1 k2 : List (String × PyObj))
    (cb1 cb2 : Option String) (m : HookImpl)
    (exec : String → List HookImpl → List (String × PyObj) → Bool → PyObj) :
    ∃ st1 st2 d1 c1 d2 c2,
      call_historic ⟨n, impls, Option.none, some []⟩ cb1 k1 exec = .ok (st1, d1, c1)
      ∧ call_historic st1 cb2 k2 exec = .ok (st2, d2, c2)
      ∧ (_maybe_apply_history st2 m exec).1
          = [⟨n, [m.plugin_name], k1, false⟩, ⟨n, [m.plugin_name], k2, false⟩] := by
  refine ⟨_, _, _, _, _, _, rfl, rfl, ?_⟩
  simp [_maybe_apply_history, if_isEmpty_self]

/-- C9: when the plugin generator of a legacy (old-style) wrapper raises
during the teardown phase, the frame emits exactly one
`PluggyTeardownRaisedWarning` diagnostic whose message contains the plugin
name and the hook name, and the exception is still re-raised to the engine
rather than swallowed. -/
theorem old_style_teardown_warns_and_reraises (hook_name : String)
    (hook_impl : HookImpl) (inner : PyResult → InnerOutcome) (arg : ResumeArg)
    (e : PyExc) (h : inner (resumeResult arg) = InnerOutcome.raises e) :
    runOldStyleResume hook_name hook_impl inner arg
        = ([teardownWarnMsg hook_name hook_impl e], .raisesR e)
    ∧ ∃ s1 s2 s3, teardownWarnMsg hook_name hook_impl e
        = s1 ++ hook_impl.plugin_name ++ s2 ++ hook_name ++ s3 := by
  constructor
  · simp only [runOldStyleResume]
    rw [h]
  · refine ⟨"A plugin raised an exception during an old-style hookwrapper teardown.\n"
        ++ "Plugin: ", ", Hook: ",
      "\n" ++ PyExc.typeName e ++ ": " ++ PyExc.text e ++ "\n"
        ++ "For more information see https://pluggy.readthedocs.io/en/stable/api_reference.html#pluggy.PluggyTeardownRaisedWarning",
      ?_⟩
    simp [teardownWarnMsg, String.append_assoc]

/-- Witness for C9 at a concrete raising teardown generator. -/
theorem old_style_teardown_warns_and_reraises_witness :
    innerRaisesBoom (resumeResult (.sendV (.int 1)))
        = InnerOutcome.raises (.valueError ("boom"))
    ∧ runOldStyleResume "myhook" implP1 innerRaisesBoom (.sendV (.int 1))
        = ([teardownWarnMsg "myhook" implP1 (.valueError ("boom"))],
           .raisesR (.valueError ("boom"))) :=
  ⟨rfl, (old_style_teardown_warns_and_reraises "myhook" implP1 innerRaisesBoom
    (.sendV (.int 1)) (.valueError ("boom")) rfl).1⟩

end Pluggy
